import Mathlib

/-!
Verification development for the recipe-scraper API.

The definitions below are a shallow embedding of the TypeScript sources:
  src/index.ts            (POST /process pipeline handler)
  src/services/ai.ts      (AIService.extractRecipe)
  src/services/scraper.ts (videoAgent part: getCookiesPathForUrl, downloadVideo,
                           processVideoRecipe)
  src/utils/cookies.ts    (isTikTokUrl, getCookiesPathForUrl)

JavaScript runtime values whose fields may be undefined are embedded as
structures with Option fields; machine-level effects (file system, child
processes, the Gemini backend) are passed in explicitly as oracle values so
the control flow of the handler becomes a pure function on them.
-/

namespace RecipeScraper

/-- Substring occurrence over character lists: true when `t` occurs as a
contiguous run inside the second list. -/
def charsContain (t : List Char) : List Char → Bool
  | [] => t.isEmpty
  | c :: rest => t.isPrefixOf (c :: rest) || charsContain t rest

/-- Model of the JavaScript substring test `s.includes pat` (used by
`isTikTokUrl` on hostnames and by the timeout classification in index.ts):
true exactly when `pat` occurs inside `s`. -/
def strContains (s pat : String) : Bool :=
  charsContain pat.toList s.toList

/-- Model of the JavaScript `s.trim()`: strip leading and trailing
whitespace characters. -/
def jsTrim (s : String) : String :=
  ⟨((s.toList.dropWhile Char.isWhitespace).reverse.dropWhile Char.isWhitespace).reverse⟩

/-- Usage metrics of one structuring (Gemini) call, from src/types/index.ts
`UsageMetrics`.  Every value the code actually pushes into the request-level
list is built in ai.ts / videoAgent with all token fields defaulted to 0 via
`|| 0`, so the fields are total here.  `costEUR` is always written as 0. -/
structure UsageMetrics where
  promptTokens : Nat
  candidatesTokens : Nat
  totalTokens : Nat
  costEUR : Nat
deriving DecidableEq, Repr

/-- Runtime shape of a recipe candidate object as the handler sees it: each
array-valued field of the JS object may be missing (undefined), hence Option.
Fields not consulted by the pipeline logic (servings, timings, source_url,
id) are omitted. -/
structure RecipeVal where
  title : Option String
  ingredients : Option (List String)
  steps : Option (List String)
  tips : Option (List String)
deriving DecidableEq, Repr

/-- Shape of the JSON object parsed from the Gemini backend response
(`JSON.parse` result in ai.ts line 212 and videoAgent line 484): any field
may be absent. -/
structure ParsedJson where
  title : Option String
  ingredients : Option (List String)
  steps : Option (List String)
  servings : Option String
  prepTime : Option String
  cookTime : Option String
  tips : Option (List String)
  isIncompleteField : Option Bool
deriving Repr

/-- Page-path candidate construction, from AIService.extractRecipe
(src/services/ai.ts lines 228-238): every array field is normalized with
`|| []` and title with `|| ''` before the recipe is returned. -/
def buildPageRecipe (p : ParsedJson) : RecipeVal :=
  { title := some (p.title.getD "")
    ingredients := some (p.ingredients.getD [])
    steps := some (p.steps.getD [])
    tips := some (p.tips.getD []) }

/-- Page-path incompleteness flag, from ai.ts line 240:
`parsedData.isIncomplete === true`. -/
def pageIsIncomplete (p : ParsedJson) : Bool :=
  p.isIncompleteField == some true

/-- Video-path candidate construction, from processVideoRecipe
(src/services/scraper.ts videoAgent part, lines 486-490): the parsed JSON is
spread as-is (`{ ...recipeData, source_url, id }`), so absent fields stay
absent; no array normalization happens on this path. -/
def buildVideoRecipe (p : ParsedJson) : RecipeVal :=
  { title := p.title
    ingredients := p.ingredients
    steps := p.steps
    tips := p.tips }

/-- A candidate has non-null array values for ingredients, steps and tips. -/
def hasNonNullArrays (r : RecipeVal) : Bool :=
  r.ingredients.isSome && r.steps.isSome && r.tips.isSome

/-- Completeness judgment of the handler, from src/index.ts lines 135-149:

  const hasSteps = extractedRecipe.steps && extractedRecipe.steps.length > 0;
  const hasIngredients = extractedRecipe.ingredients && ...length > 0;
  const isValidSteps = extractedRecipe.steps?.some(s =>
      s && s.trim().length > 10) || false;
  if (isIncomplete || !hasSteps || !isValidSteps) { ...incomplete... }

Note that `hasIngredients` is computed in the source but never used in the
branch condition; it is reproduced here (unused) for fidelity.  Returns true
when the candidate is judged incomplete. -/
def completenessIncomplete (r : RecipeVal) (isIncomplete : Bool) : Bool :=
  let hasSteps := !(r.steps.getD []).isEmpty
  let _hasIngredients := !(r.ingredients.getD []).isEmpty
  let isValidSteps := (r.steps.getD []).any (fun s => !(s == "") && decide (10 < (jsTrim s).length))
  isIncomplete || !hasSteps || !isValidSteps

/-! ## Credential (cookies) selection

From src/utils/cookies.ts and the identical copy in the videoAgent part of
src/services/scraper.ts.  The file system is passed in as an oracle
`fsExists`; `COOKIES_PATH` and `COOKIES_TIKTOK_PATH` are the two configured
paths. -/

/-- Environment of the cookie selection: the two configured cookie file
paths and the file-existence oracle (`fs.existsSync`). -/
structure CookieEnv where
  fsExists : String → Bool
  cookiesPath : String
  cookiesTiktokPath : String

/-- From cookies.ts lines 29-36: the URL is parsed and its lowercase
hostname tested with `includes('tiktok.com') || includes('vm.tiktok.com')`.
The embedding takes the lowercase hostname directly (URL parsing failure in
the source yields false, i.e. corresponds to a non-matching hostname). -/
def isTikTokUrl (hostname : String) : Bool :=
  strContains hostname "tiktok.com" || strContains hostname "vm.tiktok.com"

/-- From cookies.ts lines 41-46 (and scraper.ts videoAgent lines 271-276):
return the TikTok cookie path when the URL is TikTok and that file exists,
otherwise the default cookie path. -/
def getCookiesPathForUrl (env : CookieEnv) (hostname : String) : String :=
  if isTikTokUrl hostname && env.fsExists env.cookiesTiktokPath then
    env.cookiesTiktokPath
  else
    env.cookiesPath

/-- Credential material actually attached to the download, following
downloadVideo (scraper.ts videoAgent lines 281, 289-302): the selected path
is used only when the file exists, otherwise no cookie argument is passed. -/
def selectedCookiesFile (env : CookieEnv) (hostname : String) : Option String :=
  let p := getCookiesPathForUrl env hostname
  if env.fsExists p then some p else none

/-! ## Video download cascade

From downloadVideo (scraper.ts videoAgent lines 278-404).  One strategy
attempt is summarized by the outcome of its `execPromise` call (did the tool
process exit cleanly) together with the state of the output file after the
tool ran (absent, or present with a size). -/

/-- Outcome of running one download strategy command. -/
structure AttemptOutcome where
  execOk : Bool
  fileSize : Option Nat
deriving DecidableEq, Repr

/-- Result of one loop iteration of downloadVideo: either the attempt is
accepted as a success (returning the downloaded size), or it fails and the
output-file state left for the next strategy is recorded. -/
inductive AttemptStep where
  | success (size : Nat)
  | fail (fileAfter : Option Nat)
deriving DecidableEq, Repr

/-- One iteration of the strategy loop, from videoAgent lines 323-387.
Clean exit: if the file exists and is non-empty return success, if it exists
empty delete it and continue.  Tool error (catch branch): if the file exists
and is non-empty return success anyway (trailing cookie-save errors), else
delete any leftover file and continue. -/
def runAttempt (o : AttemptOutcome) : AttemptStep :=
  if o.execOk then
    match o.fileSize with
    | some n => if 0 < n then .success n else .fail none
    | none => .fail none
  else
    match o.fileSize with
    | some n => if 0 < n then .success n else .fail none
    | none => .fail none

/-- How the strategy loop terminated: success from the clean branch (the
`try` block return at line 336), success from the catch branch (return at
line 364, after a trailing tool error), or exhaustion of all strategies
(falling out of the loop, line 389 onwards). -/
inductive DlExit where
  | cleanSuccess
  | errorSuccess
  | exhausted
deriving DecidableEq, Repr

/-- Classify the loop exit over the ordered list of strategy outcomes. -/
def dlExit : List AttemptOutcome → DlExit
  | [] => .exhausted
  | o :: rest =>
    match runAttempt o with
    | .success _ => if o.execOk then .cleanSuccess else .errorSuccess
    | .fail _ => dlExit rest

/-- Which cookie file reference is placed on the yt-dlp command line, from
videoAgent lines 287-302: when the canonical file exists the code copies it
to a temp file and passes the copy; if that copy fails, the canonical path
itself is passed; when the canonical file is absent no cookie argument is
passed at all. -/
inductive CookieArg where
  | noCookies
  | tempCopy
  | canonical
deriving DecidableEq, Repr

/-- Inputs of one downloadVideo run: whether the selected canonical cookie
file exists, whether `fs.copyFileSync` to the temp path succeeds, and the
per-strategy outcomes in cascade order. -/
structure DownloadRun where
  canonicalExists : Bool
  copyOk : Bool
  attempts : List AttemptOutcome

/-- Cookie argument handed to the tool (videoAgent lines 287-302). -/
def cookieArgOf (r : DownloadRun) : CookieArg :=
  if r.canonicalExists then
    (if r.copyOk then .tempCopy else .canonical)
  else
    .noCookies

/-- A request-local temp copy of the cookies was created. -/
def hasTempCopy (r : DownloadRun) : Bool :=
  r.canonicalExists && r.copyOk

/-- Result of a downloadVideo run relevant to resource handling. -/
structure DlResult where
  exit : DlExit
  tempDeleted : Bool
deriving DecidableEq, Repr

/-- Resource bookkeeping of downloadVideo: the temp cookie copy is unlinked
inside the catch branch before its success return (lines 357-363) and after
the loop before the final throw (lines 391-397), but the clean-success
return at line 336 performs no unlink. -/
def downloadVideoModel (r : DownloadRun) : DlResult :=
  match dlExit r.attempts with
  | .cleanSuccess => { exit := .cleanSuccess, tempDeleted := false }
  | .errorSuccess => { exit := .errorSuccess, tempDeleted := hasTempCopy r }
  | .exhausted => { exit := .exhausted, tempDeleted := hasTempCopy r }

/-! ## Pipeline orchestrator

From the POST /process handler in src/index.ts (lines 70-293).  The two
effectful stages are passed in as oracle values:
  * `web`   — combined result of `scraper.scrapeUrl` followed by
              `aiService.extractRecipe` (either throws, modelled as
              `Except.error`, or yields recipe + isIncomplete + usage);
  * `video` — result of `processVideoRecipe`: it can throw, return null, or
              return a recipe with optional usage.  At most one video call
              is made per run, so a single oracle value suffices. -/

/-- Error value carried by a thrown JS Error (only its message matters to
the handler). -/
structure ErrMsg where
  message : String
deriving DecidableEq, Repr

/-- Result of the web path (scrapeUrl + extractRecipe), cf. index.ts
line 119. -/
structure WebExtract where
  recipe : RecipeVal
  isIncomplete : Bool
  usage : Option UsageMetrics
deriving DecidableEq, Repr

/-- Non-null result of processVideoRecipe, cf. index.ts lines 160-162. -/
structure VideoExtract where
  recipe : RecipeVal
  usage : Option UsageMetrics
deriving DecidableEq, Repr

/-- What the queue task returns on success: the selected recipe, the method
string, and the usageMetrics list accumulated during the run (index.ts
lines 94-96 and 258). -/
structure RunOutcome where
  recipe : RecipeVal
  method : String
  usageMetrics : List UsageMetrics
deriving DecidableEq, Repr

/-- The queue task of the handler, from index.ts lines 94-236.  Mirrors the
nested try/catch structure: on web success the completeness check decides
whether the video fallback runs and whether its candidate (guarded by
`videoSteps > 0`) replaces the web one; on web failure the video fallback
result is adopted unconditionally when non-null, else the original web error
is rethrown. -/
def runPipeline (web : Except ErrMsg WebExtract)
    (video : Except ErrMsg (Option VideoExtract)) : Except ErrMsg RunOutcome :=
  match web with
  | .ok w =>
    let base := w.usage.toList
    if completenessIncomplete w.recipe w.isIncomplete then
      match video with
      | .ok (some v) =>
        if 0 < (v.recipe.steps.getD []).length then
          .ok { recipe := v.recipe, method := "video_ai"
                usageMetrics := base ++ v.usage.toList }
        else
          .ok { recipe := w.recipe, method := "web_scraping", usageMetrics := base }
      | .ok none =>
        .ok { recipe := w.recipe, method := "web_scraping", usageMetrics := base }
      | .error _ =>
        .ok { recipe := w.recipe, method := "web_scraping", usageMetrics := base }
    else
      .ok { recipe := w.recipe, method := "web_scraping", usageMetrics := base }
  | .error e =>
    match video with
    | .ok (some v) =>
      .ok { recipe := v.recipe, method := "video_ai", usageMetrics := v.usage.toList }
    | .ok none => .error e
    | .error _ => .error e

/-- Usage aggregation, from index.ts lines 239-245: undefined when no
metrics were collected, otherwise the field-wise sums with costEUR 0. -/
def aggregateUsage (l : List UsageMetrics) : Option UsageMetrics :=
  if l.isEmpty then none
  else
    some { promptTokens := (l.map (fun u => u.promptTokens)).sum
           candidatesTokens := (l.map (fun u => u.candidatesTokens)).sum
           totalTokens := (l.map (fun u => u.totalTokens)).sum
           costEUR := 0 }

/-- HTTP-level response produced by the handler (index.ts lines 268-292). -/
structure ApiResponse where
  status : Nat
  success : Bool
  method : Option String
  data : Option RecipeVal
  usage : Option UsageMetrics
  message : Option String
deriving DecidableEq, Repr

/-- Mapping of the queue-task result to the HTTP response, from index.ts
lines 261-292: success yields a 200 JSON body with method, data and the
aggregated usage; a thrown error yields 504 when its message contains
Timeout wording and 500 otherwise, with the message exposed only in
development mode. -/
def processResponse (devMode : Bool) (out : Except ErrMsg RunOutcome) : ApiResponse :=
  match out with
  | .ok o =>
    { status := 200, success := true, method := some o.method
      data := some o.recipe, usage := aggregateUsage o.usageMetrics
      message := none }
  | .error e =>
    let isTimeout := strContains e.message "Timeout" || strContains e.message "timed out"
    { status := if isTimeout then 504 else 500, success := false
      method := none, data := none, usage := none
      message := if devMode then some e.message else none }

/-- Usage of the web structuring call, when one completed (spec-side helper
for claim C1): the web stage contributes its usage exactly when the web path
returned. -/
def webUsages (web : Except ErrMsg WebExtract) : List UsageMetrics :=
  match web with
  | .ok w => w.usage.toList
  | .error _ => []

/-- Usage reported by the video structuring call, when one returned a
result (spec-side helper for claim C1). -/
def videoUsages (video : Except ErrMsg (Option VideoExtract)) : List UsageMetrics :=
  match video with
  | .ok (some v) => v.usage.toList
  | _ => []

/-- Usage of every structuring call actually made during a run, as claim C1
words it: the web call plus, whenever the video stage was entered (web
incomplete or web threw), the video call — independently of which candidate
was selected. -/
def structuringUsagesMade (web : Except ErrMsg WebExtract)
    (video : Except ErrMsg (Option VideoExtract)) : List UsageMetrics :=
  match web with
  | .ok w =>
    webUsages web ++
      (if completenessIncomplete w.recipe w.isIncomplete then videoUsages video else [])
  | .error _ => videoUsages video

/-! ## Helper lemmas -/

/-- A list with a member is not empty (Bool form). -/
theorem isEmpty_false_of_mem {l : List String} {s : String} (h : s ∈ l) :
    l.isEmpty = false := by
  cases l with
  | nil => cases h
  | cons a t => rfl

/-- A step whose trimmed length exceeds 10 witnesses the isValidSteps test
used in the completeness check. -/
theorem validSteps_any_eq_true {steps : List String} {s : String}
    (hmem : s ∈ steps) (hlen : 10 < (jsTrim s).length) :
    (steps.any fun t => !(t == "") && decide (10 < (jsTrim t).length)) = true := by
  rw [List.any_eq_true]
  refine ⟨s, hmem, ?_⟩
  have hne : (s == "") = false := by
    cases hs : s == "" with
    | false => rfl
    | true =>
      exfalso
      have hseq : s = "" := by simpa using hs
      subst hseq
      exact absurd hlen (by decide)
  rw [hne]
  simp [hlen]

/-- A candidate with some step longer than 10 trimmed characters and a
false self-reported flag is judged complete by the handler check. -/
theorem completenessIncomplete_false_of_valid {r : RecipeVal} {s : String}
    (hmem : s ∈ r.steps.getD []) (hlen : 10 < (jsTrim s).length) :
    completenessIncomplete r false = false := by
  simp only [completenessIncomplete]
  rw [isEmpty_false_of_mem hmem, validSteps_any_eq_true hmem hlen]
  rfl

/-! ## Claims C3 and C4: the completeness evaluator -/

/-- Claim C3, counterexample: the claim says an empty ingredients list (or
all ingredients of length at most 2) makes the judgment incomplete, but the
handler judges this candidate complete: it has empty ingredients (and, in
the second instance, only a 2-character ingredient) yet one long step and a
false flag, and the verdict is complete (incomplete = false). -/
theorem c3_counterexample :
    (RecipeVal.mk (some "Tarte") (some []) (some ["Melanger la farine et le sucre"]) (some [])).ingredients = some [] ∧
    completenessIncomplete
      (RecipeVal.mk (some "Tarte") (some []) (some ["Melanger la farine et le sucre"]) (some [])) false = false ∧
    completenessIncomplete
      (RecipeVal.mk (some "Tarte") (some ["ab"]) (some ["Melanger la farine et le sucre"]) (some [])) false = false := by
  refine ⟨rfl, by decide, by decide⟩

/-- Claim C3, amended: the completeness judgment never inspects the
ingredients list — two candidates with the same steps get the same verdict
whatever their ingredients — and a candidate with empty ingredients is
judged complete as soon as it has one step longer than 10 trimmed
characters and a false self-reported flag. -/
theorem c3_theorem :
    (∀ (r r2 : RecipeVal) (inc : Bool), r.steps = r2.steps →
      completenessIncomplete r inc = completenessIncomplete r2 inc) ∧
    (∀ (steps : List String) (s : String), s ∈ steps → 10 < (jsTrim s).length →
      completenessIncomplete (RecipeVal.mk none (some []) (some steps) (some [])) false = false) := by
  constructor
  · intro r r2 inc h
    simp only [completenessIncomplete, h]
  · intro steps s hmem hlen
    exact completenessIncomplete_false_of_valid (r := RecipeVal.mk none (some []) (some steps) (some [])) hmem hlen

/-- Claim C3, witness for the amended theorem at a concrete candidate. -/
theorem c3_witness :
    completenessIncomplete
      (RecipeVal.mk none (some []) (some ["Melanger farine et sucre puis cuire"]) (some [])) false = false :=
  c3_theorem.2 ["Melanger farine et sucre puis cuire"] "Melanger farine et sucre puis cuire"
    (by simp) (by decide)

/-- Claim C4: a true self-reported flag forces incomplete; an empty steps
list forces incomplete regardless of ingredients; and one step longer than
10 trimmed characters together with one ingredient longer than 2 characters
and a false flag yields complete. -/
theorem c4_theorem :
    (∀ r : RecipeVal, completenessIncomplete r true = true) ∧
    (∀ (r : RecipeVal) (inc : Bool), r.steps.getD [] = [] →
      completenessIncomplete r inc = true) ∧
    (∀ (r : RecipeVal) (s i : String), s ∈ r.steps.getD [] → 10 < (jsTrim s).length →
      i ∈ r.ingredients.getD [] → 2 < i.length →
      completenessIncomplete r false = false) := by
  refine ⟨?_, ?_, ?_⟩
  · intro r
    simp [completenessIncomplete]
  · intro r inc h
    simp [completenessIncomplete, h]
  · intro r s i hmem hlen _hi _hilen
    exact completenessIncomplete_false_of_valid hmem hlen

/-- Claim C4, witness: the three conjuncts applied at concrete candidates. -/
theorem c4_witness :
    completenessIncomplete
      (RecipeVal.mk (some "T") (some ["farine"]) (some ["Cuire pendant quarante minutes"]) (some [])) true = true ∧
    completenessIncomplete
      (RecipeVal.mk (some "T") (some ["farine", "sucre"]) (some []) (some [])) false = true ∧
    completenessIncomplete
      (RecipeVal.mk (some "T") (some ["farine"]) (some ["Cuire pendant quarante minutes"]) (some [])) false = false :=
  ⟨c4_theorem.1 _,
   c4_theorem.2.1 _ false rfl,
   c4_theorem.2.2 _ "Cuire pendant quarante minutes" "farine"
     (by simp) (by decide) (by simp) (by decide)⟩

/-! ## Claim C7: array normalization of structuring output -/

/-- Claim C7, counterexample: a video-path candidate built from a backend
JSON that omits every field has null (absent) ingredients, steps and tips
arrays, so the claim fails for the video path. -/
theorem c7_counterexample :
    hasNonNullArrays
      (buildVideoRecipe (ParsedJson.mk none none none none none none none none)) = false := by
  rfl

/-- Claim C7, amended: only the page-path candidate is normalized to
non-null arrays; the video-path candidate carries exactly the fields of the
parsed backend JSON, which may be absent. -/
theorem c7_theorem :
    (∀ p : ParsedJson, hasNonNullArrays (buildPageRecipe p) = true) ∧
    (∀ p : ParsedJson,
      (buildVideoRecipe p).ingredients = p.ingredients ∧
      (buildVideoRecipe p).steps = p.steps ∧
      (buildVideoRecipe p).tips = p.tips) := by
  constructor
  · intro p; rfl
  · intro p; exact ⟨rfl, rfl, rfl⟩

/-! ## Claim C2: credential scoping -/

/-- Concrete cookie environment for claim C2: the default (Instagram)
cookie file exists, the TikTok one does not. -/
def c2env : CookieEnv :=
  { fsExists := fun p => p == "cookies.txt"
    cookiesPath := "cookies.txt"
    cookiesTiktokPath := "cookies-tiktok.txt" }

/-- Claim C2, counterexample: for a TikTok URL with the TikTok cookie file
absent and the default (Instagram) file present, the selection returns the
default file rather than no credentials, contradicting the claim. -/
theorem c2_counterexample :
    isTikTokUrl "www.tiktok.com" = true ∧
    c2env.fsExists c2env.cookiesTiktokPath = false ∧
    c2env.fsExists c2env.cookiesPath = true ∧
    selectedCookiesFile c2env "www.tiktok.com" = some "cookies.txt" ∧
    selectedCookiesFile c2env "www.tiktok.com" ≠ none := by
  refine ⟨by decide, by decide, by decide, by decide, by decide⟩

/-- Claim C2, amended: when the TikTok cookie file is absent, a TikTok
request falls back to the default cookie path (the file also used for
Instagram): it receives that file when it exists and no credentials only
when it does not. -/
theorem c2_theorem :
    ∀ (env : CookieEnv) (hostname : String),
      isTikTokUrl hostname = true →
      env.fsExists env.cookiesTiktokPath = false →
      selectedCookiesFile env hostname =
        (if env.fsExists env.cookiesPath then some env.cookiesPath else none) := by
  intro env hostname _h1 h2
  simp [selectedCookiesFile, getCookiesPathForUrl, h2]

/-- Claim C2, witness for the amended theorem at the concrete environment. -/
theorem c2_witness :
    selectedCookiesFile c2env "www.tiktok.com" =
      (if c2env.fsExists c2env.cookiesPath then some c2env.cookiesPath else none) :=
  c2_theorem c2env "www.tiktok.com" (by decide) (by decide)

/-! ## Claim C8: download attempt success criterion and cleanup -/

/-- Claim C8: an attempt is treated as a success exactly when the output
file exists with positive size — also when the tool process reported an
error — and every failed attempt leaves no output file for the next
strategy (the partial file is deleted). -/
theorem c8_theorem :
    ∀ o : AttemptOutcome,
      (0 < o.fileSize.getD 0 → runAttempt o = AttemptStep.success (o.fileSize.getD 0)) ∧
      (o.fileSize.getD 0 = 0 → runAttempt o = AttemptStep.fail none) := by
  intro o
  obtain ⟨ok, fs⟩ := o
  constructor
  · intro h
    cases fs with
    | none => simp at h
    | some n =>
      simp only [Option.getD_some] at h ⊢
      cases ok <;> simp [runAttempt, h]
  · intro h
    cases fs with
    | none => cases ok <;> rfl
    | some n =>
      simp only [Option.getD_some] at h
      subst h
      cases ok <;> rfl

/-- Claim C8, witness: a tool error with a non-empty file is a success, and
an empty file after a clean exit is a failure with the file deleted. -/
theorem c8_witness :
    runAttempt (AttemptOutcome.mk false (some 5)) = AttemptStep.success 5 ∧
    runAttempt (AttemptOutcome.mk true (some 0)) = AttemptStep.fail none :=
  ⟨(c8_theorem (AttemptOutcome.mk false (some 5))).1 (by decide),
   (c8_theorem (AttemptOutcome.mk true (some 0))).2 rfl⟩

/-! ## Claim C9: disposable cookie copy -/

/-- Claim C9, counterexample: a run whose first strategy succeeds cleanly
(tool exits without error, file non-empty) creates a temp cookie copy but
does not delete it on that exit path, contradicting deletion on every exit
path. -/
theorem c9_counterexample :
    hasTempCopy (DownloadRun.mk true true [AttemptOutcome.mk true (some 5)]) = true ∧
    (downloadVideoModel (DownloadRun.mk true true [AttemptOutcome.mk true (some 5)])).exit
      = DlExit.cleanSuccess ∧
    (downloadVideoModel (DownloadRun.mk true true [AttemptOutcome.mk true (some 5)])).tempDeleted
      = false := by
  refine ⟨rfl, rfl, rfl⟩

/-- Claim C9, amended: when the canonical cookie file exists and the copy
succeeds, the tool is given the disposable copy (never the canonical file),
and the copy is deleted exactly on the exit paths that are not a clean
strategy success (success despite a trailing tool error, and exhaustion);
when the copy fails, the canonical file itself is passed to the tool. -/
theorem c9_theorem :
    ∀ r : DownloadRun,
      (r.canonicalExists = true → r.copyOk = true →
        cookieArgOf r = CookieArg.tempCopy ∧
        ((downloadVideoModel r).tempDeleted = true ↔
          dlExit r.attempts ≠ DlExit.cleanSuccess)) ∧
      (r.canonicalExists = true → r.copyOk = false →
        cookieArgOf r = CookieArg.canonical) := by
  intro r
  obtain ⟨ce, co, atts⟩ := r
  constructor
  · intro h1 h2
    subst h1; subst h2
    refine ⟨rfl, ?_⟩
    simp only [downloadVideoModel]
    cases hdl : dlExit atts <;> simp [hdl, hasTempCopy]
  · intro h1 h2
    subst h1; subst h2
    rfl

/-- Claim C9, witness for the amended theorem: a run succeeding despite a
tool error has the copy passed and deleted. -/
theorem c9_witness :
    cookieArgOf (DownloadRun.mk true true [AttemptOutcome.mk false (some 5)]) = CookieArg.tempCopy ∧
    ((downloadVideoModel (DownloadRun.mk true true [AttemptOutcome.mk false (some 5)])).tempDeleted = true ↔
      dlExit [AttemptOutcome.mk false (some 5)] ≠ DlExit.cleanSuccess) :=
  (c9_theorem (DownloadRun.mk true true [AttemptOutcome.mk false (some 5)])).1 rfl rfl

/-! ## Claim C10: unconditional adoption in the web-exception branch -/

/-- Claim C10: when the web path throws, a non-null video result is adopted
unconditionally with method video_ai — there is no zero-steps guard in this
branch, so the statement holds for every video candidate, including one
with an empty or absent steps array. -/
theorem c10_theorem :
    ∀ (e : ErrMsg) (v : VideoExtract),
      runPipeline (Except.error e) (Except.ok (some v)) =
        Except.ok (RunOutcome.mk v.recipe "video_ai" v.usage.toList) := by
  intro e v
  rfl

/-! ## Claim C1: usage aggregation -/

/-- Concrete web-stage result for claim C1: an incomplete candidate (no
steps) whose structuring call reported usage 10/5/15. -/
def c1web : Except ErrMsg WebExtract :=
  Except.ok
    { recipe := RecipeVal.mk (some "Tarte") (some ["farine"]) (some []) (some [])
      isIncomplete := false
      usage := some (UsageMetrics.mk 10 5 15 0) }

/-- Concrete video-stage result for claim C1: a candidate with zero steps
(so it is discarded) whose structuring call reported usage 7/3/10. -/
def c1video : Except ErrMsg (Option VideoExtract) :=
  Except.ok (some
    { recipe := RecipeVal.mk (some "Tarte") (some []) (some []) none
      usage := some (UsageMetrics.mk 7 3 10 0) })

/-- Claim C1, counterexample: in this run the video structuring call was
made and reported usage, but its candidate was discarded for having zero
steps; the aggregate returned to the caller contains only the web call
tokens (15 total), not the field-wise sum over every call made (25 total). -/
theorem c1_counterexample :
    runPipeline c1web c1video =
      Except.ok (RunOutcome.mk
        (RecipeVal.mk (some "Tarte") (some ["farine"]) (some []) (some []))
        "web_scraping" [UsageMetrics.mk 10 5 15 0]) ∧
    (processResponse false (runPipeline c1web c1video)).usage =
      some (UsageMetrics.mk 10 5 15 0) ∧
    aggregateUsage (structuringUsagesMade c1web c1video) =
      some (UsageMetrics.mk 17 8 25 0) ∧
    (processResponse false (runPipeline c1web c1video)).usage ≠
      aggregateUsage (structuringUsagesMade c1web c1video) := by
  refine ⟨rfl, rfl, rfl, by decide⟩

/-- Claim C1, amended: the usage list aggregated into the response is the
web structuring call usage plus the video structuring call usage only when
the video candidate was selected (method video_ai); a video call whose
candidate was discarded contributes nothing. -/
theorem c1_theorem :
    ∀ (web : Except ErrMsg WebExtract) (video : Except ErrMsg (Option VideoExtract))
      (o : RunOutcome),
      runPipeline web video = Except.ok o →
      o.usageMetrics =
        webUsages web ++ (if o.method = "video_ai" then videoUsages video else []) := by
  intro web video o h
  cases web with
  | error e =>
    cases video with
    | error e2 => exact absurd h (by simp [runPipeline])
    | ok ov =>
      cases ov with
      | none => exact absurd h (by simp [runPipeline])
      | some v =>
        simp only [runPipeline, Except.ok.injEq] at h
        subst h
        simp [webUsages, videoUsages]
  | ok w =>
    by_cases hc : completenessIncomplete w.recipe w.isIncomplete
    · cases video with
      | error e2 =>
        simp [runPipeline, hc] at h
        subst h
        simp [webUsages, videoUsages]
      | ok ov =>
        cases ov with
        | none =>
          simp [runPipeline, hc] at h
          subst h
          simp [webUsages, videoUsages]
        | some v =>
          by_cases hs : 0 < (v.recipe.steps.getD []).length
          · simp [runPipeline, hc, hs] at h
            subst h
            simp [webUsages, videoUsages]
          · simp [runPipeline, hc, hs] at h
            subst h
            simp [webUsages, videoUsages]
    · simp [runPipeline, hc] at h
      subst h
      simp [webUsages, videoUsages]

/-- Claim C1, witness for the amended theorem: the concrete run of the
counterexample instantiates it with method web_scraping. -/
theorem c1_witness :
    (RunOutcome.mk
        (RecipeVal.mk (some "Tarte") (some ["farine"]) (some []) (some []))
        "web_scraping" [UsageMetrics.mk 10 5 15 0]).usageMetrics =
      webUsages c1web ++
        (if (RunOutcome.mk
              (RecipeVal.mk (some "Tarte") (some ["farine"]) (some []) (some []))
              "web_scraping" [UsageMetrics.mk 10 5 15 0]).method = "video_ai"
         then videoUsages c1video else []) :=
  c1_theorem c1web c1video _ rfl

/-! ## Claim C5: fallback selection after an incomplete web candidate -/

/-- Claim C5: when the web candidate is judged incomplete, a video
candidate with at least one step is selected with method video_ai; a video
candidate with zero steps, a null video result, or a video exception all
keep the web candidate with method web_scraping; and the request succeeds
in every case. -/
theorem c5_theorem :
    ∀ (w : WebExtract) (video : Except ErrMsg (Option VideoExtract)),
      completenessIncomplete w.recipe w.isIncomplete = true →
      (∀ v : VideoExtract, video = Except.ok (some v) →
        0 < (v.recipe.steps.getD []).length →
        runPipeline (Except.ok w) video =
          Except.ok (RunOutcome.mk v.recipe "video_ai" (w.usage.toList ++ v.usage.toList))) ∧
      (∀ v : VideoExtract, video = Except.ok (some v) →
        (v.recipe.steps.getD []).length = 0 →
        runPipeline (Except.ok w) video =
          Except.ok (RunOutcome.mk w.recipe "web_scraping" w.usage.toList)) ∧
      (video = Except.ok none →
        runPipeline (Except.ok w) video =
          Except.ok (RunOutcome.mk w.recipe "web_scraping" w.usage.toList)) ∧
      (∀ e : ErrMsg, video = Except.error e →
        runPipeline (Except.ok w) video =
          Except.ok (RunOutcome.mk w.recipe "web_scraping" w.usage.toList)) ∧
      (∀ dev : Bool, (processResponse dev (runPipeline (Except.ok w) video)).success = true) := by
  intro w video hinc
  refine ⟨?_, ?_, ?_, ?_, ?_⟩
  · intro v hv hs
    subst hv
    simp [runPipeline, hinc, hs]
  · intro v hv hs
    subst hv
    simp [runPipeline, hinc, hs]
  · intro hv
    subst hv
    simp [runPipeline, hinc]
  · intro e hv
    subst hv
    simp [runPipeline, hinc]
  · intro dev
    cases video with
    | error e => simp [runPipeline, hinc, processResponse]
    | ok ov =>
      cases ov with
      | none => simp [runPipeline, hinc, processResponse]
      | some v =>
        by_cases hs : 0 < (v.recipe.steps.getD []).length
        · simp [runPipeline, hinc, hs, processResponse]
        · simp [runPipeline, hinc, hs, processResponse]

/-- Concrete incomplete web-stage result for the claim C5 witness. -/
def c5w : WebExtract :=
  { recipe := RecipeVal.mk (some "Tarte") (some ["farine"]) (some []) (some [])
    isIncomplete := false
    usage := some (UsageMetrics.mk 10 5 15 0) }

/-- Concrete video-stage result with three steps for the claim C5 witness. -/
def c5v : VideoExtract :=
  { recipe := RecipeVal.mk (some "Tarte") (some ["farine", "sucre"])
      (some ["Prechauffer le four a 180 degres", "Melanger farine et sucre", "Cuire 40 minutes"]) (some [])
    usage := some (UsageMetrics.mk 7 3 10 0) }

/-- Claim C5, witness: with the incomplete web candidate, a video error
keeps the web candidate with method web_scraping, and a three-step video
candidate is selected with method video_ai. -/
theorem c5_witness :
    runPipeline (Except.ok c5w) (Except.error (ErrMsg.mk "yt-dlp failed")) =
      Except.ok (RunOutcome.mk c5w.recipe "web_scraping" c5w.usage.toList) ∧
    runPipeline (Except.ok c5w) (Except.ok (some c5v)) =
      Except.ok (RunOutcome.mk c5v.recipe "video_ai" (c5w.usage.toList ++ c5v.usage.toList)) :=
  ⟨(c5_theorem c5w (Except.error (ErrMsg.mk "yt-dlp failed")) (by decide)).2.2.2.1
      (ErrMsg.mk "yt-dlp failed") rfl,
   (c5_theorem c5w (Except.ok (some c5v)) (by decide)).1 c5v rfl (by decide)⟩

/-! ## Claim C6: root-cause preservation on total failure -/

/-- Claim C6: when the web path throws and the video fallback returns null
or throws, the run fails with the original web-path error; the caller gets
a single unsuccessful server-error response (status 500 or 504) whose
surfaced message, in development mode, is the original web error message. -/
theorem c6_theorem :
    ∀ (e : ErrMsg) (video : Except ErrMsg (Option VideoExtract)) (dev : Bool),
      (video = Except.ok none ∨ ∃ e2, video = Except.error e2) →
      runPipeline (Except.error e) video = Except.error e ∧
      (processResponse dev (runPipeline (Except.error e) video)).success = false ∧
      ((processResponse dev (runPipeline (Except.error e) video)).status = 500 ∨
       (processResponse dev (runPipeline (Except.error e) video)).status = 504) ∧
      (dev = true →
        (processResponse dev (runPipeline (Except.error e) video)).message = some e.message) := by
  intro e video dev h
  have hp : runPipeline (Except.error e) video = Except.error e := by
    rcases h with h | ⟨e2, h⟩ <;> subst h <;> rfl
  refine ⟨hp, ?_, ?_, ?_⟩
  · rw [hp]; rfl
  · rw [hp]
    cases ht : (strContains e.message "Timeout" || strContains e.message "timed out") with
    | false => left; simp [processResponse, ht]
    | true => right; simp [processResponse, ht]
  · intro hdev
    subst hdev
    rw [hp]
    simp [processResponse]

/-- Claim C6, witness: a concrete fetch failure with a null video fallback
surfaces the original fetch error as a 500 in development mode. -/
theorem c6_witness :
    runPipeline (Except.error (ErrMsg.mk "FetchError: navigation failed"))
        (Except.ok none) = Except.error (ErrMsg.mk "FetchError: navigation failed") ∧
    (processResponse true (runPipeline (Except.error (ErrMsg.mk "FetchError: navigation failed"))
        (Except.ok none))).success = false ∧
    ((processResponse true (runPipeline (Except.error (ErrMsg.mk "FetchError: navigation failed"))
        (Except.ok none))).status = 500 ∨
     (processResponse true (runPipeline (Except.error (ErrMsg.mk "FetchError: navigation failed"))
        (Except.ok none))).status = 504) ∧
    (true = true →
      (processResponse true (runPipeline (Except.error (ErrMsg.mk "FetchError: navigation failed"))
          (Except.ok none))).message = some (ErrMsg.mk "FetchError: navigation failed").message) :=
  c6_theorem (ErrMsg.mk "FetchError: navigation failed") (Except.ok none) true (Or.inl rfl)

end RecipeScraper
